import Mathlib

/-!
Verification of the dwellgo notification dispatch engine.

A shallow embedding of the notification service
(`internal/services` notification file: `NotificationService` and its
methods `SendNotification`, `sendEmailNotification`, `sendSMSNotification`,
`sendUrgentNotification`, `sendHighPriorityNotification`,
`isCriticalNotificationType`, `getEmailTemplate`, `getSMSTemplate`,
`replaceVariables`, `SendBulkNotifications`), together with proofs about its
routing, error handling and template rendering behaviour.

Modelling conventions:
* Strings are Lean `String`s; the character-level engine works on `List Char`.
* Go's `strings.ReplaceAll(s, old, new)` is modelled by `replaceAll`
  (structural, fuel-based so that it evaluates in the kernel).  All call
  sites in the source pass a non-empty `old` (always of the form `{{key}}`),
  so the model fixes the (never exercised) empty-pattern case to be the
  identity.
* Go's `map[string]string` literals are modelled as association lists in
  the textual order of the source literal; where a claim depends on map
  iteration order, the theorems quantify over permutations of that list.
* External collaborators are gathered in `Env`:
  `uuid.MustParse` success is `Env.validUUID` (a panic of `MustParse` is the
  `SendOutcome.panicked` outcome), the SES `SendEmail` call outcome is
  `Env.emailSendOk`, the SNS `Publish` outcome is `Env.smsSendOk`,
  `uuid.New().String()` is `Env.newUUID`, `time.Now()` is `Env.now` /
  `Env.dateStr` / `Env.timeStr`.
* Transport invocations are counted in `SendResult.emailCalls` /
  `SendResult.smsCalls`.
-/

/-- The character `{` (written escaped throughout). -/
def lbrace : Char := '\x7b'

/-- The character `}`. -/
def rbrace : Char := '\x7d'

/-- `true` iff the character list contains no brace character. -/
def braceFree (l : List Char) : Bool :=
  l.all fun c => !(c == lbrace || c == rbrace)

/-- The placeholder `{{k}}` built from a key, at character level; this is the
`placeholder := "{{" + key + "}}"` of the source `replaceVariables`. -/
def ph (k : List Char) : List Char :=
  lbrace :: lbrace :: (k ++ [rbrace, rbrace])

/-- Fuel-driven worker for `replaceAll`.  Scans left to right; on a match of
`pat` it emits `rep` and continues after the matched span (Go's
`strings.Replace` semantics with `n = -1`). -/
def replaceAllGo (pat rep : List Char) : Nat → List Char → List Char
  | _, [] => []
  | 0, s => s
  | fuel + 1, c :: rest =>
    if pat ≠ [] ∧ pat.isPrefixOf (c :: rest) then
      rep ++ replaceAllGo pat rep fuel (rest.drop (pat.length - 1))
    else
      c :: replaceAllGo pat rep fuel rest

/-- Go's `strings.ReplaceAll(s, pat, rep)` on character lists (for the
non-empty patterns the source uses). -/
def replaceAll (pat rep s : List Char) : List Char :=
  replaceAllGo pat rep s.length s

/-- Go's `strings.ReplaceAll` on `String`s. -/
def replaceAllStr (s oldPat newVal : String) : String :=
  ⟨replaceAll oldPat.data newVal.data s.data⟩

/-- `replaceVariables` of the source: one global `ReplaceAll` per key, in the
order the association list presents the map entries. -/
def replaceVariables (template : String) (vars : List (String × String)) :
    String :=
  vars.foldl
    (fun result kv => replaceAllStr result ("\x7b\x7b" ++ kv.1 ++ "\x7d\x7d") kv.2)
    template

/-- `NotificationRequest` of the source (JSON tags elided; `RelatedEntityID`
is an optional UUID kept as an optional string). -/
structure NotificationRequest where
  type : String
  title : String
  message : String
  landlordID : String
  recipientID : String
  recipientType : String
  recipientEmail : String
  recipientPhone : String
  relatedEntityID : Option String
  relatedEntityType : String
  priority : String
deriving DecidableEq, Repr

/-- `NotificationResponse` of the source; `SentAt` is an abstract clock
reading. -/
structure NotificationResponse where
  notificationID : String
  status : String
  sentAt : Nat
  channel : String
deriving DecidableEq, Repr

/-- `EmailTemplate` of the source, with the vars map as an association
list in source literal order. -/
structure EmailTemplate where
  subject : String
  htmlBody : String
  textBody : String
  vars : List (String × String)
deriving DecidableEq, Repr

/-- `SMSTemplate` of the source. -/
structure SMSTemplate where
  message : String
  vars : List (String × String)
deriving DecidableEq, Repr

/-- The external collaborators of one dispatch: `uuid` parsing, the SES and
SNS transports, fresh-UUID generation and the clock. -/
structure Env where
  validUUID : String → Bool
  emailSendOk : Bool
  smsSendOk : Bool
  newUUID : String
  now : Nat
  dateStr : String
  timeStr : String
  emailErrMsg : String
  smsErrMsg : String

/-- Outcome of a send: a Go panic (from `uuid.MustParse`), an error return,
or a successful response. -/
inductive SendOutcome where
  | panicked
  | failed (msg : String)
  | ok (resp : NotificationResponse)
deriving DecidableEq, Repr

/-- Result of a send, instrumented with the number of email-transport
(`SES SendEmail`) and SMS-transport (`SNS Publish`) invocations. -/
structure SendResult where
  outcome : SendOutcome
  emailCalls : Nat
  smsCalls : Nat
deriving DecidableEq, Repr

/-- `isCriticalNotificationType` of the source (`criticalTypes` map literal,
lookup defaulting to `false`). -/
def isCriticalNotificationType (notificationType : String) : Bool :=
  ["maintenance_emergency", "payment_overdue", "lease_violation",
   "property_damage", "security_breach"].contains notificationType

/-- Verbatim body of the `maintenance_request` HTML raw-string literal. -/
def maintenanceRequestEmailHTML : String :=
  "\n\t\t\t\t<!DOCTYPE html>\n\t\t\t\t<html>\n\t\t\t\t<head>\n\t\t\t\t\t<style>\n\t\t\t\t\t\tbody \x7b font-family: Arial, sans-serif; line-height: 1.6; color: #333; \x7d\n\t\t\t\t\t\t.container \x7b max-width: 600px; margin: 0 auto; padding: 20px; \x7d\n\t\t\t\t\t\t.header \x7b background-color: #f8f9fa; padding: 20px; border-radius: 5px; \x7d\n\t\t\t\t\t\t.content \x7b padding: 20px; \x7d\n\t\t\t\t\t\t.button \x7b display: inline-block; padding: 10px 20px; background-color: #007bff; color: white; text-decoration: none; border-radius: 5px; \x7d\n\t\t\t\t\t</style>\n\t\t\t\t</head>\n\t\t\t\t<body>\n\t\t\t\t\t<div class=\"container\">\n\t\t\t\t\t\t<div class=\"header\">\n\t\t\t\t\t\t\t<h2>Maintenance Request</h2>\n\t\t\t\t\t\t</div>\n\t\t\t\t\t\t<div class=\"content\">\n\t\t\t\t\t\t\t<p>Hello \x7b\x7brecipient_name\x7d\x7d,</p>\n\t\t\t\t\t\t\t<p>A new maintenance request has been submitted:</p>\n\t\t\t\t\t\t\t<h3>\x7b\x7btitle\x7d\x7d</h3>\n\t\t\t\t\t\t\t<p>\x7b\x7bmessage\x7d\x7d</p>\n\t\t\t\t\t\t\t<p><strong>Priority:</strong> \x7b\x7bpriority\x7d\x7d</p>\n\t\t\t\t\t\t\t<p><strong>Category:</strong> \x7b\x7bcategory\x7d\x7d</p>\n\t\t\t\t\t\t\t<p><strong>Date:</strong> \x7b\x7bdate\x7d\x7d at \x7b\x7btime\x7d\x7d</p>\n\t\t\t\t\t\t\t<p>Please review and take appropriate action.</p>\n\t\t\t\t\t\t</div>\n\t\t\t\t\t</div>\n\t\t\t\t</body>\n\t\t\t\t</html>"

/-- Verbatim body of the `maintenance_request` text raw-string literal. -/
def maintenanceRequestEmailText : String :=
  "\nMaintenance Request\n\nHello \x7b\x7brecipient_name\x7d\x7d,\n\nA new maintenance request has been submitted:\n\n\x7b\x7btitle\x7d\x7d\n\n\x7b\x7bmessage\x7d\x7d\n\nPriority: \x7b\x7bpriority\x7d\x7d\nCategory: \x7b\x7bcategory\x7d\x7d\nDate: \x7b\x7bdate\x7d\x7d at \x7b\x7btime\x7d\x7d\n\nPlease review and take appropriate action."

/-- Verbatim body of the `payment_due` HTML raw-string literal. -/
def paymentDueEmailHTML : String :=
  "\n\t\t\t\t<!DOCTYPE html>\n\t\t\t\t<html>\n\t\t\t\t<head>\n\t\t\t\t\t<style>\n\t\t\t\t\t\tbody \x7b font-family: Arial, sans-serif; line-height: 1.6; color: #333; \x7d\n\t\t\t\t\t\t.container \x7b max-width: 600px; margin: 0 auto; padding: 20px; \x7d\n\t\t\t\t\t\t.header \x7b background-color: #fff3cd; padding: 20px; border-radius: 5px; border: 1px solid #ffeaa7; \x7d\n\t\t\t\t\t\t.content \x7b padding: 20px; \x7d\n\t\t\t\t\t\t.amount \x7b font-size: 24px; font-weight: bold; color: #d63031; \x7d\n\t\t\t\t\t</style>\n\t\t\t\t</head>\n\t\t\t\t<body>\n\t\t\t\t\t<div class=\"container\">\n\t\t\t\t\t\t<div class=\"header\">\n\t\t\t\t\t\t\t<h2>Payment Due Reminder</h2>\n\t\t\t\t\t\t</div>\n\t\t\t\t\t\t<div class=\"content\">\n\t\t\t\t\t\t\t<p>Hello \x7b\x7brecipient_name\x7d\x7d,</p>\n\t\t\t\t\t\t\t<p>This is a friendly reminder that your payment is due:</p>\n\t\t\t\t\t\t\t<p class=\"amount\">Amount: $\x7b\x7bamount\x7d\x7d</p>\n\t\t\t\t\t\t\t<p><strong>Due Date:</strong> \x7b\x7bdue_date\x7d\x7d</p>\n\t\t\t\t\t\t\t<p><strong>Property:</strong> \x7b\x7bproperty_name\x7d\x7d</p>\n\t\t\t\t\t\t\t<p>Please ensure your payment is submitted on time to avoid any late fees.</p>\n\t\t\t\t\t\t</div>\n\t\t\t\t\t</div>\n\t\t\t\t</body>\n\t\t\t\t</html>"

/-- Verbatim body of the `payment_due` text raw-string literal. -/
def paymentDueEmailText : String :=
  "\nPayment Due Reminder\n\nHello \x7b\x7brecipient_name\x7d\x7d,\n\nThis is a friendly reminder that your payment is due:\n\nAmount: $\x7b\x7bamount\x7d\x7d\nDue Date: \x7b\x7bdue_date\x7d\x7d\nProperty: \x7b\x7bproperty_name\x7d\x7d\n\nPlease ensure your payment is submitted on time to avoid any late fees."

/-- Verbatim body of the generic (default branch) HTML raw-string literal. -/
def genericEmailHTML : String :=
  "\n\t\t\t\t<!DOCTYPE html>\n\t\t\t\t<html>\n\t\t\t\t<head>\n\t\t\t\t\t<style>\n\t\t\t\t\t\tbody \x7b font-family: Arial, sans-serif; line-height: 1.6; color: #333; \x7d\n\t\t\t\t\t\t.container \x7b max-width: 600px; margin: 0 auto; padding: 20px; \x7d\n\t\t\t\t\t\t.header \x7b background-color: #f8f9fa; padding: 20px; border-radius: 5px; \x7d\n\t\t\t\t\t\t.content \x7b padding: 20px; \x7d\n\t\t\t\t\t</style>\n\t\t\t\t</head>\n\t\t\t\t<body>\n\t\t\t\t\t<div class=\"container\">\n\t\t\t\t\t\t<div class=\"header\">\n\t\t\t\t\t\t\t<h2>\x7b\x7btitle\x7d\x7d</h2>\n\t\t\t\t\t\t</div>\n\t\t\t\t\t\t<div class=\"content\">\n\t\t\t\t\t\t\t<p>Hello \x7b\x7brecipient_name\x7d\x7d,</p>\n\t\t\t\t\t\t\t<p>\x7b\x7bmessage\x7d\x7d</p>\n\t\t\t\t\t\t\t<p>Date: \x7b\x7bdate\x7d\x7d at \x7b\x7btime\x7d\x7d</p>\n\t\t\t\t\t\t</div>\n\t\t\t\t\t</div>\n\t\t\t\t</body>\n\t\t\t\t</html>"

/-- Verbatim body of the generic (default branch) text raw-string literal. -/
def genericEmailText : String :=
  "\n\x7b\x7btitle\x7d\x7d\n\nHello \x7b\x7brecipient_name\x7d\x7d,\n\n\x7b\x7bmessage\x7d\x7d\n\nDate: \x7b\x7bdate\x7d\x7d at \x7b\x7btime\x7d\x7d"

/-- The `Variables` map literal built at the top of `getEmailTemplate`
("Base template vars"), in source order.  `time.Now().Format(...)` is the
environment's `dateStr` / `timeStr`. -/
def emailBaseVariables (env : Env) (req : NotificationRequest) :
    List (String × String) :=
  [("recipient_name", req.recipientType),
   ("landlord_name", "Property Management"),
   ("date", env.dateStr),
   ("time", env.timeStr)]

/-- `getEmailTemplate` of the source. -/
def getEmailTemplate (env : Env) (notificationType : String)
    (req : NotificationRequest) : EmailTemplate :=
  let vars := emailBaseVariables env req
  match notificationType with
  | "maintenance_request" =>
    { subject := "New Maintenance Request - \x7b\x7btitle\x7d\x7d"
      htmlBody := maintenanceRequestEmailHTML
      textBody := maintenanceRequestEmailText
      vars := vars }
  | "payment_due" =>
    { subject := "Payment Due Reminder"
      htmlBody := paymentDueEmailHTML
      textBody := paymentDueEmailText
      vars := vars }
  | _ =>
    { subject := "\x7b\x7btitle\x7d\x7d"
      htmlBody := genericEmailHTML
      textBody := genericEmailText
      vars := vars }

/-- `getSMSTemplate` of the source. -/
def getSMSTemplate (env : Env) (notificationType : String)
    (req : NotificationRequest) : SMSTemplate :=
  let vars : List (String × String) :=
    [("recipient_name", req.recipientType)]
  match notificationType with
  | "maintenance_emergency" =>
    { message := "URGENT: Emergency maintenance request at \x7b\x7bproperty_name\x7d\x7d. Please respond immediately."
      vars := vars }
  | "payment_overdue" =>
    { message := "Payment overdue: $\x7b\x7bamount\x7d\x7d due for \x7b\x7bproperty_name\x7d\x7d. Please contact us immediately."
      vars := vars }
  | _ =>
    { message := "\x7b\x7btitle\x7d\x7d: \x7b\x7bmessage\x7d\x7d"
      vars := vars }

/-- `sendEmailNotification` of the source: render the email template, call
the SES transport; on transport failure return the wrapped error. -/
def sendEmailNotification (env : Env) (req : NotificationRequest) :
    SendResult :=
  let template := getEmailTemplate env req.type req
  let _subject := replaceVariables template.subject template.vars
  let _htmlBody := replaceVariables template.htmlBody template.vars
  let _textBody := replaceVariables template.textBody template.vars
  if env.emailSendOk then
    { outcome := .ok { notificationID := env.newUUID, status := "sent",
                       sentAt := env.now, channel := "email" }
      emailCalls := 1, smsCalls := 0 }
  else
    { outcome := .failed ("failed to send email: " ++ env.emailErrMsg)
      emailCalls := 1, smsCalls := 0 }

/-- `sendSMSNotification` of the source: reject an empty phone number before
any transport call, otherwise render the SMS template and call the SNS
transport. -/
def sendSMSNotification (env : Env) (req : NotificationRequest) :
    SendResult :=
  if req.recipientPhone = "" then
    { outcome := .failed "recipient phone number is required for SMS notifications"
      emailCalls := 0, smsCalls := 0 }
  else
    let template := getSMSTemplate env req.type req
    let _message := replaceVariables template.message template.vars
    if env.smsSendOk then
      { outcome := .ok { notificationID := env.newUUID, status := "sent",
                         sentAt := env.now, channel := "sms" }
        emailCalls := 0, smsCalls := 1 }
    else
      { outcome := .failed ("failed to send SMS: " ++ env.smsErrMsg)
        emailCalls := 0, smsCalls := 1 }

/-- `sendUrgentNotification` of the source: email first (failure is fatal),
then best-effort SMS when a phone number is present; an SMS failure is
swallowed and the email response is returned. -/
def sendUrgentNotification (env : Env) (req : NotificationRequest) :
    SendResult :=
  let er := sendEmailNotification env req
  match er.outcome with
  | .ok resp =>
    if req.recipientPhone ≠ "" then
      let sr := sendSMSNotification env req
      { outcome := .ok resp
        emailCalls := er.emailCalls + sr.emailCalls
        smsCalls := er.smsCalls + sr.smsCalls }
    else
      { outcome := .ok resp, emailCalls := er.emailCalls, smsCalls := er.smsCalls }
  | .failed msg =>
    { outcome := .failed ("failed to send urgent email: " ++ msg)
      emailCalls := er.emailCalls, smsCalls := er.smsCalls }
  | .panicked =>
    { outcome := .panicked, emailCalls := er.emailCalls, smsCalls := er.smsCalls }

/-- `sendHighPriorityNotification` of the source: email first (failure is
fatal), then best-effort SMS when a phone number is present and the type is
critical; an SMS failure is swallowed. -/
def sendHighPriorityNotification (env : Env) (req : NotificationRequest) :
    SendResult :=
  let er := sendEmailNotification env req
  match er.outcome with
  | .ok resp =>
    if req.recipientPhone ≠ "" ∧ isCriticalNotificationType req.type then
      let sr := sendSMSNotification env req
      { outcome := .ok resp
        emailCalls := er.emailCalls + sr.emailCalls
        smsCalls := er.smsCalls + sr.smsCalls }
    else
      { outcome := .ok resp, emailCalls := er.emailCalls, smsCalls := er.smsCalls }
  | .failed msg =>
    { outcome := .failed ("failed to send high priority email: " ++ msg)
      emailCalls := er.emailCalls, smsCalls := er.smsCalls }
  | .panicked =>
    { outcome := .panicked, emailCalls := er.emailCalls, smsCalls := er.smsCalls }

/-- `SendNotification` of the source.  Building the (discarded)
`domain.Notification` record evaluates `uuid.MustParse` on `LandlordID` and
`RecipientID`, which panics on an invalid UUID; that is the `panicked`
branch.  Otherwise the request routes on `Priority` and a returned error is
wrapped as `failed to send notification: ...`. -/
def SendNotification (env : Env) (req : NotificationRequest) : SendResult :=
  if env.validUUID req.landlordID && env.validUUID req.recipientID then
    let inner :=
      match req.priority with
      | "urgent" => sendUrgentNotification env req
      | "high" => sendHighPriorityNotification env req
      | _ => sendEmailNotification env req
    match inner.outcome with
    | .failed msg =>
      { inner with outcome := .failed ("failed to send notification: " ++ msg) }
    | _ => inner
  else
    { outcome := .panicked, emailCalls := 0, smsCalls := 0 }

/-- Result of `SendBulkNotifications`: either some item panicked (aborting
the whole Go call), or the loop completed with the collected responses and
the returned error value (always `none` in the source). -/
inductive BulkResult where
  | panicked
  | completed (responses : List NotificationResponse) (err : Option String)
deriving DecidableEq, Repr

/-- The loop of `SendBulkNotifications`: per-item errors are skipped
(`continue`), successes are appended in order. The `Nat` argument is the
index of the current item, used to look up that item's external world. -/
def sendBulkAux (env : Nat → Env) : Nat → List NotificationRequest → BulkResult
  | _, [] => .completed [] none
  | i, req :: rest =>
    match (SendNotification (env i) req).outcome with
    | .panicked => .panicked
    | .failed _ => sendBulkAux env (i + 1) rest
    | .ok resp =>
      match sendBulkAux env (i + 1) rest with
      | .panicked => .panicked
      | .completed responses err => .completed (resp :: responses) err

/-- `SendBulkNotifications` of the source. -/
def SendBulkNotifications (env : Nat → Env) (requests : List NotificationRequest) :
    BulkResult :=
  sendBulkAux env 0 requests

/-! ## Concrete fixtures used by witnesses and counterexamples -/

/-- A concrete external world: UUID strings are (for the purpose of these
fixtures) exactly the strings containing a dash, and both transports
succeed. -/
def env0 : Env :=
  { validUUID := fun s => s.data.contains '-'
    emailSendOk := true
    smsSendOk := true
    newUUID := "notif-1"
    now := 100
    dateStr := "October 11, 2025"
    timeStr := "10:00 AM"
    emailErrMsg := "ses down"
    smsErrMsg := "sns down" }

/-- A concrete urgent request with a phone number and well-formed IDs. -/
def urgentReq : NotificationRequest :=
  { type := "maintenance_emergency"
    title := "Leak"
    message := "Pipe burst"
    landlordID := "uid-1"
    recipientID := "uid-2"
    recipientType := "tenant"
    recipientEmail := "t@example.com"
    recipientPhone := "+15551234567"
    relatedEntityID := none
    relatedEntityType := ""
    priority := "urgent" }

/-! ## Analysis helpers (definitions used by the theorems below) -/

/-- Index of the leftmost match of `pat` in the scanned list, if any. -/
def firstMatch (pat : List Char) : List Char → Option Nat
  | [] => none
  | c :: rest =>
    if pat.isPrefixOf (c :: rest) then some 0
    else (firstMatch pat rest).map (· + 1)

/-- One fold step of `replaceVariables`, at character level. -/
def substStep (z : List Char) (kv : String × String) : List Char :=
  replaceAll (ph kv.1.data) kv.2.data z

/-- `true` iff the first character of `v` (when `v` is non-empty) does not
occur in `k`. -/
def headAvoids (v k : List Char) : Bool :=
  match v with
  | [] => true
  | c :: _ => !(k.contains c)

/-- The result selector applied to each indexed request: `some` of the
response on success, `none` otherwise. -/
def bulkSelect (env : Nat → Env) (p : Nat × NotificationRequest) :
    Option NotificationResponse :=
  match (SendNotification (env p.1) p.2).outcome with
  | .ok resp => some resp
  | _ => none

/-! ## Character-level theory of `replaceAll` -/

theorem replaceAllGo_congr (pat rep : List Char) :
    ∀ f₁ f₂ (s : List Char), s.length ≤ f₁ → s.length ≤ f₂ →
      replaceAllGo pat rep f₁ s = replaceAllGo pat rep f₂ s := by
  intro f₁
  induction f₁ with
  | zero =>
    intro f₂ s h1 _
    cases s with
    | nil => cases f₂ <;> rfl
    | cons c cs => simp at h1
  | succ f ih =>
    intro f₂ s h1 h2
    cases s with
    | nil => cases f₂ <;> rfl
    | cons c cs =>
      cases f₂ with
      | zero => simp at h2
      | succ g =>
        simp only [List.length_cons, Nat.succ_le_succ_iff] at h1 h2
        simp only [replaceAllGo]
        by_cases hc : pat ≠ [] ∧ pat.isPrefixOf (c :: cs)
        · rw [if_pos hc, if_pos hc]
          have hd : (cs.drop (pat.length - 1)).length ≤ cs.length := by
            simp [List.length_drop]
          rw [ih g _ (le_trans hd h1) (le_trans hd h2)]
        · rw [if_neg hc, if_neg hc, ih g cs h1 h2]

theorem replaceAll_cons (pat rep : List Char) (c : Char) (rest : List Char) :
    replaceAll pat rep (c :: rest) =
      if pat ≠ [] ∧ pat.isPrefixOf (c :: rest) then
        rep ++ replaceAll pat rep (rest.drop (pat.length - 1))
      else
        c :: replaceAll pat rep rest := by
  unfold replaceAll
  simp only [List.length_cons, replaceAllGo]
  split
  · have hd : (rest.drop (pat.length - 1)).length ≤ rest.length := by
      simp [List.length_drop]
    rw [replaceAllGo_congr pat rep rest.length _ _ hd (le_refl _)]
  · rfl

theorem replaceAll_cons_neg (pat rep : List Char) (c : Char) (rest : List Char)
    (h : ¬ pat <+: (c :: rest)) :
    replaceAll pat rep (c :: rest) = c :: replaceAll pat rep rest := by
  rw [replaceAll_cons, if_neg]
  rintro ⟨-, hp⟩
  exact h (List.isPrefixOf_iff_prefix.mp hp)

theorem replaceAll_match (pat rep : List Char) (hne : pat ≠ []) {s : List Char}
    (hp : pat <+: s) :
    replaceAll pat rep s = rep ++ replaceAll pat rep (s.drop pat.length) := by
  cases s with
  | nil => exact absurd (List.prefix_nil.mp hp) hne
  | cons c rest =>
    rw [replaceAll_cons, if_pos ⟨hne, List.isPrefixOf_iff_prefix.mpr hp⟩]
    congr 2
    rcases hpl : pat.length with - | m
    · exact absurd (List.length_eq_zero.mp hpl) hne
    · simp

theorem replaceAll_skip (pat rep : List Char) (hne : pat ≠ []) :
    ∀ a b : List Char, (∀ i, i < a.length → ¬ pat <+: (a ++ b).drop i) →
      replaceAll pat rep (a ++ b) = a ++ replaceAll pat rep b := by
  intro a
  induction a with
  | nil => intro b _; simp
  | cons c a' ih =>
    intro b h
    have h0 : ¬ pat <+: (c :: (a' ++ b)) := by
      have := h 0 (by simp)
      simpa using this
    rw [List.cons_append, replaceAll_cons_neg pat rep c (a' ++ b) h0,
        ih b fun i hi => by simpa using h (i + 1) (by simpa using Nat.succ_lt_succ hi)]
    rfl

theorem replaceAll_no_occ (pat rep : List Char) (hne : pat ≠ []) (s : List Char)
    (h : ∀ i, ¬ pat <+: s.drop i) : replaceAll pat rep s = s := by
  have := replaceAll_skip pat rep hne s [] (fun i _ => by simpa using h i)
  simpa [show replaceAll pat rep [] = [] from rfl] using this


theorem firstMatch_none (pat : List Char) (hne : pat ≠ []) :
    ∀ s : List Char, firstMatch pat s = none → ∀ i, ¬ pat <+: s.drop i := by
  intro s
  induction s with
  | nil =>
    intro _ i hp
    rw [List.drop_nil] at hp
    exact hne (List.prefix_nil.mp hp)
  | cons c rest ih =>
    intro h i
    by_cases hp : pat.isPrefixOf (c :: rest)
    · rw [firstMatch, if_pos hp] at h
      exact absurd h (by simp)
    · rw [firstMatch, if_neg hp] at h
      have hrest : firstMatch pat rest = none := by
        rcases hfm : firstMatch pat rest with - | j
        · rfl
        · rw [hfm] at h; exact absurd h (by simp)
      match i with
      | 0 =>
        intro hpre
        exact hp (List.isPrefixOf_iff_prefix.mpr (by simpa using hpre))
      | i' + 1 =>
        have := ih hrest i'
        simpa using this

theorem firstMatch_some (pat : List Char) (hne : pat ≠ []) :
    ∀ (s : List Char) (j : Nat), firstMatch pat s = some j →
      pat <+: s.drop j ∧ (∀ i, i < j → ¬ pat <+: s.drop i) ∧
        j + pat.length ≤ s.length := by
  intro s
  induction s with
  | nil => intro j h; simp [firstMatch] at h
  | cons c rest ih =>
    intro j h
    by_cases hp : pat.isPrefixOf (c :: rest)
    · rw [firstMatch, if_pos hp] at h
      have hj : j = 0 := by simpa using h.symm
      subst hj
      have hpre : pat <+: c :: rest := List.isPrefixOf_iff_prefix.mp hp
      refine ⟨by simpa using hpre, by omega, ?_⟩
      simpa using hpre.length_le
    · rw [firstMatch, if_neg hp] at h
      rcases hfm : firstMatch pat rest with - | j'
      · rw [hfm] at h; exact absurd h (by simp)
      · rw [hfm] at h
        have hj : j = j' + 1 := by simpa using h.symm
        subst hj
        obtain ⟨h1, h2, h3⟩ := ih j' hfm
        refine ⟨by simpa using h1, ?_, by simp only [List.length_cons]; omega⟩
        intro i hi
        match i with
        | 0 =>
          intro hpre
          exact hp (List.isPrefixOf_iff_prefix.mpr (by simpa using hpre))
        | i' + 1 =>
          have := h2 i' (by omega)
          simpa using this

theorem replaceAll_decomp (pat rep : List Char) (hne : pat ≠ []) {s : List Char}
    {j : Nat} (h : firstMatch pat s = some j) :
    replaceAll pat rep s =
      s.take j ++ (rep ++ replaceAll pat rep (s.drop (j + pat.length))) := by
  obtain ⟨h1, h2, h3⟩ := firstMatch_some pat hne s j h
  have hj : j ≤ s.length := by
    have : 1 ≤ pat.length := by
      rcases pat with - | ⟨x, xs⟩
      · exact absurd rfl hne
      · simp
    omega
  have htj : (s.take j).length = j := by simp [List.length_take]; omega
  conv_lhs => rw [← List.take_append_drop j s]
  rw [replaceAll_skip pat rep hne (s.take j) (s.drop j) ?cond]
  case cond =>
    intro i hi
    rw [List.take_append_drop j s]
    exact h2 i (by omega)
  rw [replaceAll_match pat rep hne h1, List.drop_drop]

/-! ## Placeholders cannot overlap each other -/

theorem braceFree_iff {l : List Char} :
    braceFree l = true ↔ ∀ c ∈ l, c ≠ lbrace ∧ c ≠ rbrace := by
  simp [braceFree, List.all_eq_true, not_or]

theorem braceFree_tail {c : Char} {l : List Char} (h : braceFree (c :: l) = true) :
    braceFree l = true :=
  braceFree_iff.mpr fun d hd => (braceFree_iff.mp h) d (List.mem_cons_of_mem c hd)

theorem ph_ne_nil (k : List Char) : ph k ≠ [] := by simp [ph]

theorem ph_length (k : List Char) : (ph k).length = k.length + 4 := by
  simp [ph]

/-- In a list whose head part contains no `{`, no tail-from-the-middle can
start with `{`. -/
theorem drop_ne_lb_cons (a : List Char) (hA : ∀ c ∈ a, c ≠ lbrace) :
    ∀ i, i < a.length → ∀ (x b : List Char), (a ++ x).drop i ≠ lbrace :: b := by
  induction a with
  | nil => simp
  | cons c a' ih =>
    intro i hi x b
    match i with
    | 0 =>
      intro h
      rw [List.cons_append, List.drop_zero] at h
      exact hA c (by simp) (by injection h)
    | i' + 1 =>
      intro h
      rw [List.cons_append, List.drop_succ_cons] at h
      exact ih (fun d hd => hA d (List.mem_cons_of_mem c hd)) i'
        (by simpa using hi) x b h

/-- Cancellation: two brace-free lists followed by `}}` determine each
other. -/
theorem braceFree_rbrb_inj :
    ∀ (a b t u : List Char), braceFree a = true → braceFree b = true →
      a ++ rbrace :: rbrace :: t = b ++ rbrace :: rbrace :: u → a = b := by
  intro a
  induction a with
  | nil =>
    intro b t u _ hb h
    cases b with
    | nil => rfl
    | cons d b' =>
      exfalso
      rw [List.nil_append, List.cons_append] at h
      have hd : rbrace = d := by injection h
      exact ((braceFree_iff.mp hb) d (by simp)).2 hd.symm
  | cons c a' ih =>
    intro b t u ha hb h
    cases b with
    | nil =>
      exfalso
      rw [List.nil_append, List.cons_append] at h
      have hc : c = rbrace := by injection h
      exact ((braceFree_iff.mp ha) c (by simp)).2 hc
    | cons d b' =>
      rw [List.cons_append, List.cons_append] at h
      have hc : c = d := by injection h
      have ht : a' ++ rbrace :: rbrace :: t = b' ++ rbrace :: rbrace :: u := by
        injection h
      rw [hc, ih b' t u (braceFree_tail ha) (braceFree_tail hb) ht]

/-- Distinct brace-free keys: the placeholder of one is never a prefix of a
string starting with the placeholder of the other. -/
theorem ph_ne_pref {a b : List Char} (hab : a ≠ b) (ha : braceFree a = true)
    (hb : braceFree b = true) (t : List Char) : ¬ ph b <+: (ph a ++ t) := by
  rintro ⟨u, hu⟩
  have h2 : b ++ rbrace :: rbrace :: u = a ++ rbrace :: rbrace :: t := by
    simp only [ph, List.cons_append, List.append_assoc, List.cons.injEq,
      true_and] at hu
    simpa using hu
  exact hab (braceFree_rbrb_inj b a u t hb ha h2).symm

/-- No placeholder can start strictly inside another placeholder. -/
theorem ph_not_pref_inside {a : List Char} (ha : braceFree a = true) {j : Nat}
    (h1 : 1 ≤ j) (h2 : j < (ph a).length) (b t : List Char) :
    ¬ ph b <+: ((ph a ++ t).drop j) := by
  rintro ⟨u, hu⟩
  match j, h1 with
  | 1, _ =>
    have hd : (ph a ++ t).drop 1 = lbrace :: ((a ++ [rbrace, rbrace]) ++ t) := by
      simp [ph]
    rw [hd] at hu
    simp only [ph, List.cons_append, List.cons.injEq] at hu
    have hu2 : lbrace :: ((b ++ [rbrace, rbrace]) ++ u) = (a ++ [rbrace, rbrace]) ++ t :=
      hu.2
    cases a with
    | nil =>
      have : lbrace = rbrace := by
        rw [List.nil_append, List.cons_append] at hu2
        injection hu2
      exact absurd this (by decide)
    | cons c a' =>
      have hc : lbrace = c := by
        rw [List.cons_append, List.cons_append] at hu2
        injection hu2
      exact ((braceFree_iff.mp ha) c (by simp)).1 hc.symm
  | j' + 2, _ =>
    have hj' : j' < a.length + 2 := by
      rw [ph_length] at h2; omega
    have hd : (ph a ++ t).drop (j' + 2) = ((a ++ [rbrace, rbrace]) ++ t).drop j' := by
      simp [ph]
    rw [hd] at hu
    have hch : ∀ c ∈ a ++ [rbrace, rbrace], c ≠ lbrace := by
      intro c hc
      rcases List.mem_append.mp hc with hc | hc
      · exact ((braceFree_iff.mp ha) c hc).1
      · have hc' : c = rbrace := by simpa using hc
        rw [hc']; decide
    exact drop_ne_lb_cons (a ++ [rbrace, rbrace]) hch j' (by simpa using hj') t
      (lbrace :: (b ++ [rbrace, rbrace]) ++ u)
      (by rw [← hu]; simp [ph])

/-- Placeholders of two distinct brace-free keys cannot both be prefixes of
the same string. -/
theorem ph_pref_unique {a b : List Char} (hab : a ≠ b) (ha : braceFree a = true)
    (hb : braceFree b = true) (s : List Char) :
    ¬ (ph a <+: s ∧ ph b <+: s) := by
  rintro ⟨h1, h2⟩
  rcases Nat.le_total (ph a).length (ph b).length with hle | hle
  · exact ph_ne_pref hab.symm hb ha []
      (by simpa using List.prefix_of_prefix_length_le h1 h2 hle)
  · exact ph_ne_pref hab ha hb []
      (by simpa using List.prefix_of_prefix_length_le h2 h1 hle)

/-! ## Replacement can neither create nor destroy foreign placeholders -/

theorem pref_of_pref_append {p a b : List Char} (h : p <+: a ++ b)
    (hl : p.length ≤ a.length) : p <+: a := by
  obtain ⟨u, hu⟩ := h
  have hp : p = (a ++ b).take p.length := by
    rw [← hu, List.take_left]
  rw [hp, List.take_append_eq_append_take, Nat.sub_eq_zero_of_le hl,
    List.take_zero, List.append_nil]
  exact List.take_prefix _ a

theorem replaceAll_skip_braceFree {v : List Char} (hv : braceFree v = true)
    (k rep x : List Char) :
    replaceAll (ph k) rep (v ++ x) = v ++ replaceAll (ph k) rep x := by
  apply replaceAll_skip _ _ (ph_ne_nil k)
  intro i hi
  rintro ⟨u, hu⟩
  have hvlb : ∀ c ∈ v, c ≠ lbrace := fun c hc => ((braceFree_iff.mp hv) c hc).1
  exact drop_ne_lb_cons v hvlb i hi x (lbrace :: (k ++ rbrace :: rbrace :: u))
    (by rw [← hu]; simp [ph])

theorem ph_getElem_mem (k : List Char) {j : Nat} (h1 : 1 ≤ j)
    (h2 : j < (ph k).length) :
    (ph k)[j] = lbrace ∨ (ph k)[j] = rbrace ∨ (ph k)[j] ∈ k := by
  match j, h1 with
  | 1, _ => left; simp [ph]
  | j' + 2, _ =>
    have hj' : j' < k.length + 2 := by rw [ph_length] at h2; omega
    have hb : j' < (k ++ [rbrace, rbrace]).length := by simp; omega
    have hstep : (ph k)[j' + 2] = (k ++ [rbrace, rbrace])[j'] := by
      simp [ph]
    rw [hstep]
    by_cases hk : j' < k.length
    · right; right
      rw [List.getElem_append_left hk]
      exact List.getElem_mem hk
    · right; left
      have hge : k.length ≤ j' := by omega
      rw [List.getElem_append_right hge]
      have h01 : j' - k.length = 0 ∨ j' - k.length = 1 := by omega
      rcases h01 with h01 | h01 <;> simp [h01]

theorem replaceAll_no_create {k1 k2 v1 : List Char}
    (hk : k1 ≠ k2) (hbk1 : braceFree k1 = true) (hbk2 : braceFree k2 = true)
    (hv1 : v1 ≠ []) (hbv1 : braceFree v1 = true)
    (hh1 : ∀ c, v1.head? = some c → c ∉ k2)
    (s : List Char) (hs2 : ¬ ph k2 <+: s) (hs1 : ¬ ph k1 <+: s) :
    ¬ ph k2 <+: replaceAll (ph k1) v1 s := by
  rcases hfm : firstMatch (ph k1) s with - | j
  · rw [replaceAll_no_occ _ _ (ph_ne_nil k1) s
      (firstMatch_none _ (ph_ne_nil k1) s hfm)]
    exact hs2
  · obtain ⟨hm1, hm2, hm3⟩ := firstMatch_some _ (ph_ne_nil k1) s j hfm
    have hj0 : j ≠ 0 := fun h => hs1 (by simpa [h] using hm1)
    have hjs : j ≤ s.length := by
      have := ph_length k1; omega
    have htj : (s.take j).length = j := by simp [List.length_take]; omega
    rw [replaceAll_decomp _ _ (ph_ne_nil k1) hfm]
    intro hp
    by_cases hlen : (ph k2).length ≤ j
    · exact hs2 ((pref_of_pref_append hp (by omega)).trans (List.take_prefix j s))
    · rcases v1 with - | ⟨c, v1t⟩
      · exact hv1 rfl
      obtain ⟨u, hu⟩ := hp
      have hjp : j < (ph k2).length := by omega
      have hcj : (ph k2)[j] = c := by
        have hL : (ph k2 ++ u)[j]? = (ph k2)[j]? := List.getElem?_append_left hjp
        have hR :
            (s.take j ++ (c :: v1t ++ replaceAll (ph k1) (c :: v1t)
              (s.drop (j + (ph k1).length))))[j]? = some c := by
          have hge : (s.take j).length ≤ j := by omega
          rw [List.getElem?_append_right hge]
          simp [htj]
        have := hL.symm.trans ((congrArg (fun l => l[j]?) hu).trans hR)
        rw [List.getElem?_eq_getElem hjp] at this
        exact Option.some.inj this
      have hcv : c ≠ lbrace ∧ c ≠ rbrace :=
        (braceFree_iff.mp hbv1) c (by simp)
      have hck2 : c ∉ k2 := hh1 c (by simp)
      have hj1 : 1 ≤ j := by omega
      rcases ph_getElem_mem k2 hj1 hjp with h | h | h
      · exact hcv.1 (by rw [← hcj, h])
      · exact hcv.2 (by rw [← hcj, h])
      · exact hck2 (hcj ▸ h)

/-! ## Commutation of two placeholder replacements -/

theorem replaceAll_comm {k1 k2 v1 v2 : List Char}
    (hk : k1 ≠ k2) (hbk1 : braceFree k1 = true) (hbk2 : braceFree k2 = true)
    (hv1 : v1 ≠ []) (hbv1 : braceFree v1 = true)
    (hv2 : v2 ≠ []) (hbv2 : braceFree v2 = true)
    (hh1 : ∀ c, v1.head? = some c → c ∉ k2)
    (hh2 : ∀ c, v2.head? = some c → c ∉ k1) :
    ∀ s : List Char,
      replaceAll (ph k2) v2 (replaceAll (ph k1) v1 s) =
        replaceAll (ph k1) v1 (replaceAll (ph k2) v2 s) := by
  have main : ∀ n (s : List Char), s.length ≤ n →
      replaceAll (ph k2) v2 (replaceAll (ph k1) v1 s) =
        replaceAll (ph k1) v1 (replaceAll (ph k2) v2 s) := by
    intro n
    induction n with
    | zero =>
      intro s hs
      have hnil : s = [] := List.length_eq_zero.mp (Nat.le_zero.mp hs)
      subst hnil
      rfl
    | succ n ih =>
      intro s hs
      by_cases h1 : ph k1 <+: s
      · by_cases h2 : ph k2 <+: s
        · exact absurd ⟨h1, h2⟩ (ph_pref_unique hk hbk1 hbk2 s)
        · obtain ⟨t, ht⟩ := h1
          subst ht
          have htlen : t.length ≤ n := by
            rw [List.length_append, ph_length] at hs; omega
          have hcond : ∀ i, i < (ph k1).length →
              ¬ ph k2 <+: (ph k1 ++ t).drop i := by
            intro i hi
            match i with
            | 0 => simpa using h2
            | i' + 1 => exact ph_not_pref_inside hbk1 (by omega) hi k2 t
          rw [replaceAll_match (ph k1) v1 (ph_ne_nil k1)
              (List.prefix_append (ph k1) t), List.drop_left]
          rw [replaceAll_skip_braceFree hbv1 k2 v2 (replaceAll (ph k1) v1 t)]
          rw [replaceAll_skip (ph k2) v2 (ph_ne_nil k2) (ph k1) t hcond]
          rw [replaceAll_match (ph k1) v1 (ph_ne_nil k1)
              (List.prefix_append (ph k1) (replaceAll (ph k2) v2 t)),
            List.drop_left]
          rw [ih t htlen]
      · by_cases h2 : ph k2 <+: s
        · obtain ⟨t, ht⟩ := h2
          subst ht
          have htlen : t.length ≤ n := by
            rw [List.length_append, ph_length] at hs; omega
          have hcond : ∀ i, i < (ph k2).length →
              ¬ ph k1 <+: (ph k2 ++ t).drop i := by
            intro i hi
            match i with
            | 0 => simpa using h1
            | i' + 1 => exact ph_not_pref_inside hbk2 (by omega) hi k1 t
          rw [replaceAll_skip (ph k1) v1 (ph_ne_nil k1) (ph k2) t hcond]
          rw [replaceAll_match (ph k2) v2 (ph_ne_nil k2)
              (List.prefix_append (ph k2) (replaceAll (ph k1) v1 t)),
            List.drop_left]
          rw [replaceAll_match (ph k2) v2 (ph_ne_nil k2)
              (List.prefix_append (ph k2) t), List.drop_left]
          rw [replaceAll_skip_braceFree hbv2 k1 v1 (replaceAll (ph k2) v2 t)]
          rw [ih t htlen]
        · cases s with
          | nil => rfl
          | cons c rest =>
            have hrlen : rest.length ≤ n := by
              simp only [List.length_cons] at hs; omega
            have e1 : replaceAll (ph k1) v1 (c :: rest) =
                c :: replaceAll (ph k1) v1 rest :=
              replaceAll_cons_neg _ _ _ _ h1
            have e2 : replaceAll (ph k2) v2 (c :: rest) =
                c :: replaceAll (ph k2) v2 rest :=
              replaceAll_cons_neg _ _ _ _ h2
            have hnc1 : ¬ ph k2 <+: c :: replaceAll (ph k1) v1 rest :=
              e1 ▸ replaceAll_no_create hk hbk1 hbk2 hv1 hbv1 hh1 (c :: rest) h2 h1
            have hnc2 : ¬ ph k1 <+: c :: replaceAll (ph k2) v2 rest :=
              e2 ▸ replaceAll_no_create (Ne.symm hk) hbk2 hbk1 hv2 hbv2 hh2
                (c :: rest) h1 h2
            rw [e1, e2, replaceAll_cons_neg _ _ _ _ hnc1,
              replaceAll_cons_neg _ _ _ _ hnc2, ih rest hrlen]
  intro s
  exact main s.length s (le_refl _)

/-! ## String-level bridge for `replaceVariables` -/

theorem ph_data (k : String) :
    ("\x7b\x7b" ++ k ++ "\x7d\x7d").data = ph k.data := by
  rw [String.data_append, String.data_append]
  rfl


theorem replaceVariables_data (t : String) (l : List (String × String)) :
    (replaceVariables t l).data = l.foldl substStep t.data := by
  induction l generalizing t with
  | nil => rfl
  | cons kv l' ih =>
    show (replaceVariables (replaceAllStr t ("\x7b\x7b" ++ kv.1 ++ "\x7d\x7d") kv.2) l').data = _
    rw [ih]
    show List.foldl substStep
      (replaceAll ("\x7b\x7b" ++ kv.1 ++ "\x7d\x7d").data kv.2.data t.data) l' = _
    rw [ph_data]
    rfl


theorem headAvoids_spec {v k : List Char} (h : headAvoids v k = true) :
    ∀ c, v.head? = some c → c ∉ k := by
  intro c hc
  cases v with
  | nil => simp at hc
  | cons d tl =>
    have hd : d = c := by simpa using hc
    subst hd
    simpa [headAvoids] using h

/-- C8 (amended): `replaceVariables` is a pure function of the template and
the key/value sequence in iteration order, but it is not order-independent
in general (see the counterexample); order-independence does hold whenever
the mapping's keys are pairwise distinct and brace-free and every value is
non-empty, brace-free, and does not start with a character occurring in
another entry's key: then any two iteration orders of the same mapping
produce the same output, each key being replaced exactly once globally. -/
theorem replaceVariables_perm (t : String) (l l' : List (String × String))
    (hperm : List.Perm l l')
    (hnodup : (l.map Prod.fst).Nodup)
    (hkeys : ∀ kv ∈ l, braceFree kv.1.data = true)
    (hvals : ∀ kv ∈ l, kv.2.data ≠ [] ∧ braceFree kv.2.data = true)
    (hheads : ∀ kv ∈ l, ∀ kv2 ∈ l, kv.1 ≠ kv2.1 →
      headAvoids kv.2.data kv2.1.data = true) :
    replaceVariables t l = replaceVariables t l' := by
  apply String.ext
  rw [replaceVariables_data, replaceVariables_data]
  refine List.Perm.foldl_eq' hperm ?_ t.data
  intro x hx y hy z
  by_cases hxy : x = y
  · subst hxy; rfl
  · have hkeyne : x.1 ≠ y.1 :=
      fun h => hxy (List.inj_on_of_nodup_map hnodup hx hy h)
    have hne : x.1.data ≠ y.1.data := fun h => hkeyne (String.ext h)
    show replaceAll (ph y.1.data) y.2.data (replaceAll (ph x.1.data) x.2.data z) =
      replaceAll (ph x.1.data) x.2.data (replaceAll (ph y.1.data) y.2.data z)
    exact replaceAll_comm hne (hkeys x hx) (hkeys y hy) (hvals x hx).1
      (hvals x hx).2 (hvals y hy).1 (hvals y hy).2
      (headAvoids_spec (hheads x hx y hy hkeyne))
      (headAvoids_spec (hheads y hy x hx hkeyne.symm)) z

/-! ## Unresolved placeholders survive replacement -/

theorem infix_cons_ext {l r : List Char} (c : Char) (h : l <:+: r) :
    l <:+: c :: r := by
  obtain ⟨u, t, rfl⟩ := h
  exact ⟨c :: u, t, by simp⟩

theorem infix_append_ext {l r : List Char} (v : List Char) (h : l <:+: r) :
    l <:+: v ++ r := by
  obtain ⟨u, t, rfl⟩ := h
  exact ⟨v ++ u, t, by simp⟩

theorem replaceAll_keeps_other {k key : List Char} (hk : k ≠ key)
    (hbk : braceFree k = true) (hbkey : braceFree key = true) (v : List Char) :
    ∀ s : List Char, ph k <:+: s → ph k <:+: replaceAll (ph key) v s := by
  have main : ∀ n (s : List Char), s.length ≤ n → ph k <:+: s →
      ph k <:+: replaceAll (ph key) v s := by
    intro n
    induction n with
    | zero =>
      intro s hs hocc
      have hnil : s = [] := List.length_eq_zero.mp (Nat.le_zero.mp hs)
      subst hnil
      exact absurd (List.infix_nil.mp hocc) (ph_ne_nil k)
    | succ n ih =>
      intro s hs hocc
      by_cases hm : ph key <+: s
      · obtain ⟨t, ht⟩ := hm
        subst ht
        have htlen : t.length ≤ n := by
          rw [List.length_append, ph_length] at hs; omega
        obtain ⟨a, b, hab⟩ := hocc
        rw [replaceAll_match _ _ (ph_ne_nil key)
            (List.prefix_append (ph key) t), List.drop_left]
        by_cases hlen : (ph key).length ≤ a.length
        · have hpref : ph key <+: a ++ (ph k ++ b) := by
            rw [← List.append_assoc, hab]
            exact List.prefix_append (ph key) t
          obtain ⟨a2, ha2⟩ := pref_of_pref_append hpref hlen
          have hcat : ph key ++ (a2 ++ (ph k ++ b)) = ph key ++ t := by
            rw [← hab, ← ha2]
            simp [List.append_assoc]
          have ht2 : t = a2 ++ (ph k ++ b) := (List.append_cancel_left hcat).symm
          exact infix_append_ext v
            (ih t htlen ⟨a2, b, by rw [ht2]; simp [List.append_assoc]⟩)
        · rcases Nat.eq_zero_or_pos a.length with h0 | hpos
          · have ha : a = [] := List.length_eq_zero.mp h0
            subst ha
            have hpk : ph k <+: ph key ++ t := ⟨b, by simpa using hab⟩
            exact absurd ⟨hpk, List.prefix_append (ph key) t⟩
              (ph_pref_unique hk hbk hbkey (ph key ++ t))
          · have hdrop : ph k <+: (ph key ++ t).drop a.length := by
              rw [← hab, List.append_assoc, List.drop_left]
              exact List.prefix_append (ph k) b
            exact absurd hdrop
              (ph_not_pref_inside hbkey hpos (by omega) k t)
      · cases s with
        | nil => exact absurd (List.infix_nil.mp hocc) (ph_ne_nil k)
        | cons c rest =>
          obtain ⟨a, b, hab⟩ := hocc
          cases a with
          | nil =>
            have hs' : c :: rest = ph k ++ b := by simpa using hab.symm
            have hcnd : ∀ i, i < (ph k).length →
                ¬ ph key <+: (ph k ++ b).drop i := by
              intro i hi
              match i with
              | 0 =>
                rw [hs'] at hm
                simpa using hm
              | i' + 1 => exact ph_not_pref_inside hbk (by omega) hi key b
            rw [hs', replaceAll_skip (ph key) v (ph_ne_nil key) (ph k) b hcnd]
            exact (List.prefix_append (ph k) _).isInfix
          | cons a0 a' =>
            have hs0 : a0 :: (a' ++ ph k ++ b) = c :: rest := by
              simpa [List.append_assoc] using hab
            have h1 : a' ++ ph k ++ b = rest := by injection hs0
            have hrlen : rest.length ≤ n := by
              simp only [List.length_cons] at hs; omega
            rw [replaceAll_cons_neg _ _ _ _ hm]
            exact infix_cons_ext c (ih rest hrlen ⟨a', b, h1⟩)
  intro s
  exact main s.length s (le_refl _)

theorem replaceVariables_keeps (t : String) (m : List (String × String))
    (k : String) (hbk : braceFree k.data = true)
    (hm : ∀ kv ∈ m, braceFree kv.1.data = true ∧ kv.1 ≠ k)
    (hocc : ph k.data <:+: t.data) :
    ph k.data <:+: (replaceVariables t m).data := by
  rw [replaceVariables_data]
  induction m generalizing t with
  | nil => exact hocc
  | cons kv m' ih =>
    show ph k.data <:+: List.foldl substStep (substStep t.data kv) m'
    have hstep : ph k.data <:+: substStep t.data kv := by
      have hne : k.data ≠ kv.1.data := by
        intro h
        exact (hm kv (by simp)).2 (String.ext h.symm)
      exact replaceAll_keeps_other hne hbk (hm kv (by simp)).1 kv.2.data t.data hocc
    have := ih (t := ⟨substStep t.data kv⟩) (fun kv2 h2 => hm kv2 (by simp [h2])) hstep
    simpa using this

/-! ## Rendering with no matching placeholder is the identity -/

theorem replaceAll_no_infix {pat : List Char} (rep s : List Char)
    (hne : pat ≠ []) (h : ¬ pat <:+: s) : replaceAll pat rep s = s := by
  apply replaceAll_no_occ pat rep hne
  intro i hp
  exact h (hp.isInfix.trans (List.drop_suffix i s).isInfix)

theorem foldl_substStep_unchanged :
    ∀ (m : List (String × String)) (z : List Char),
      (∀ kv ∈ m, ¬ ph kv.1.data <:+: z) → m.foldl substStep z = z := by
  intro m
  induction m with
  | nil => intro z _; rfl
  | cons kv m' ih =>
    intro z h
    have hstep : substStep z kv = z :=
      replaceAll_no_infix kv.2.data z (ph_ne_nil _) (h kv (by simp))
    rw [List.foldl_cons, hstep, ih z fun kv2 h2 => h kv2 (by simp [h2])]

theorem replaceVariables_unchanged (t : String) (m : List (String × String))
    (h : ∀ kv ∈ m, ¬ ph kv.1.data <:+: t.data) : replaceVariables t m = t := by
  apply String.ext
  rw [replaceVariables_data]
  exact foldl_substStep_unchanged m t.data h

/-! ## Dispatch-level helper lemmas -/

theorem sendEmail_ok {env : Env} (req : NotificationRequest)
    (h : env.emailSendOk = true) :
    sendEmailNotification env req =
      { outcome := .ok { notificationID := env.newUUID, status := "sent",
                         sentAt := env.now, channel := "email" }
        emailCalls := 1, smsCalls := 0 } := by
  simp [sendEmailNotification, h]

theorem sendEmail_fail {env : Env} (req : NotificationRequest)
    (h : env.emailSendOk = false) :
    sendEmailNotification env req =
      { outcome := .failed ("failed to send email: " ++ env.emailErrMsg)
        emailCalls := 1, smsCalls := 0 } := by
  simp [sendEmailNotification, h]

theorem sendUrgent_emailOk {env : Env} (req : NotificationRequest)
    (he : env.emailSendOk = true) :
    sendUrgentNotification env req =
      { outcome := .ok { notificationID := env.newUUID, status := "sent",
                         sentAt := env.now, channel := "email" }
        emailCalls := 1
        smsCalls := if req.recipientPhone = "" then 0 else 1 } := by
  unfold sendUrgentNotification
  rw [sendEmail_ok req he]
  by_cases hp : req.recipientPhone = ""
  · simp [hp]
  · by_cases hs : env.smsSendOk
    · simp [hp, sendSMSNotification, hs]
    · simp [hp, sendSMSNotification, hs]

theorem sendUrgent_emailFail {env : Env} (req : NotificationRequest)
    (he : env.emailSendOk = false) :
    sendUrgentNotification env req =
      { outcome := .failed ("failed to send urgent email: " ++
          ("failed to send email: " ++ env.emailErrMsg))
        emailCalls := 1, smsCalls := 0 } := by
  unfold sendUrgentNotification
  rw [sendEmail_fail req he]

theorem sendHigh_emailOk {env : Env} (req : NotificationRequest)
    (he : env.emailSendOk = true) :
    sendHighPriorityNotification env req =
      { outcome := .ok { notificationID := env.newUUID, status := "sent",
                         sentAt := env.now, channel := "email" }
        emailCalls := 1
        smsCalls := if req.recipientPhone ≠ "" ∧ isCriticalNotificationType req.type
          then 1 else 0 } := by
  unfold sendHighPriorityNotification
  rw [sendEmail_ok req he]
  by_cases hc : req.recipientPhone ≠ "" ∧ isCriticalNotificationType req.type
  · by_cases hs : env.smsSendOk
    · have hp : req.recipientPhone ≠ "" := hc.1
      simp [hc, hp, sendSMSNotification, hs]
    · have hp : req.recipientPhone ≠ "" := hc.1
      simp [hc, hp, sendSMSNotification, hs]
  · simp [hc]

theorem sendHigh_emailFail {env : Env} (req : NotificationRequest)
    (he : env.emailSendOk = false) :
    sendHighPriorityNotification env req =
      { outcome := .failed ("failed to send high priority email: " ++
          ("failed to send email: " ++ env.emailErrMsg))
        emailCalls := 1, smsCalls := 0 } := by
  unfold sendHighPriorityNotification
  rw [sendEmail_fail req he]

theorem SendNotification_panic {env : Env} {req : NotificationRequest}
    (h : env.validUUID req.landlordID = false ∨
      env.validUUID req.recipientID = false) :
    SendNotification env req =
      { outcome := .panicked, emailCalls := 0, smsCalls := 0 } := by
  unfold SendNotification
  rw [if_neg]
  rcases h with h | h <;> simp [h]

theorem SendNotification_urgent_ok {env : Env} {req : NotificationRequest}
    (hL : env.validUUID req.landlordID = true)
    (hR : env.validUUID req.recipientID = true)
    (hp : req.priority = "urgent") (he : env.emailSendOk = true) :
    SendNotification env req =
      { outcome := .ok { notificationID := env.newUUID, status := "sent",
                         sentAt := env.now, channel := "email" }
        emailCalls := 1
        smsCalls := if req.recipientPhone = "" then 0 else 1 } := by
  unfold SendNotification
  rw [if_pos (by rw [hL, hR]; rfl)]
  simp only [hp]
  rw [sendUrgent_emailOk req he]

theorem SendNotification_urgent_fail {env : Env} {req : NotificationRequest}
    (hL : env.validUUID req.landlordID = true)
    (hR : env.validUUID req.recipientID = true)
    (hp : req.priority = "urgent") (he : env.emailSendOk = false) :
    SendNotification env req =
      { outcome := .failed ("failed to send notification: " ++
          ("failed to send urgent email: " ++
            ("failed to send email: " ++ env.emailErrMsg)))
        emailCalls := 1, smsCalls := 0 } := by
  unfold SendNotification
  rw [if_pos (by rw [hL, hR]; rfl)]
  simp only [hp]
  rw [sendUrgent_emailFail req he]

theorem SendNotification_high_ok {env : Env} {req : NotificationRequest}
    (hL : env.validUUID req.landlordID = true)
    (hR : env.validUUID req.recipientID = true)
    (hp : req.priority = "high") (he : env.emailSendOk = true) :
    SendNotification env req =
      { outcome := .ok { notificationID := env.newUUID, status := "sent",
                         sentAt := env.now, channel := "email" }
        emailCalls := 1
        smsCalls := if req.recipientPhone ≠ "" ∧ isCriticalNotificationType req.type
          then 1 else 0 } := by
  unfold SendNotification
  rw [if_pos (by rw [hL, hR]; rfl)]
  simp only [hp]
  rw [sendHigh_emailOk req he]

theorem SendNotification_high_fail {env : Env} {req : NotificationRequest}
    (hL : env.validUUID req.landlordID = true)
    (hR : env.validUUID req.recipientID = true)
    (hp : req.priority = "high") (he : env.emailSendOk = false) :
    SendNotification env req =
      { outcome := .failed ("failed to send notification: " ++
          ("failed to send high priority email: " ++
            ("failed to send email: " ++ env.emailErrMsg)))
        emailCalls := 1, smsCalls := 0 } := by
  unfold SendNotification
  rw [if_pos (by rw [hL, hR]; rfl)]
  simp only [hp]
  rw [sendHigh_emailFail req he]

theorem SendNotification_default {env : Env} {req : NotificationRequest}
    (hL : env.validUUID req.landlordID = true)
    (hR : env.validUUID req.recipientID = true)
    (hp1 : req.priority ≠ "urgent") (hp2 : req.priority ≠ "high") :
    SendNotification env req =
      (if env.emailSendOk then
        { outcome := .ok { notificationID := env.newUUID, status := "sent",
                           sentAt := env.now, channel := "email" }
          emailCalls := 1, smsCalls := 0 }
      else
        { outcome := .failed ("failed to send notification: " ++
            ("failed to send email: " ++ env.emailErrMsg))
          emailCalls := 1, smsCalls := 0 }) := by
  unfold SendNotification
  rw [if_pos (by rw [hL, hR]; rfl)]
  have hmatch :
      (match req.priority with
        | "urgent" => sendUrgentNotification env req
        | "high" => sendHighPriorityNotification env req
        | _ => sendEmailNotification env req) = sendEmailNotification env req := by
    split
    · exact absurd (by assumption) hp1
    · exact absurd (by assumption) hp2
    · rfl
  rw [hmatch]
  by_cases he : env.emailSendOk
  · rw [sendEmail_ok req he, if_pos he]
  · rw [sendEmail_fail req (by simpa using he), if_neg he]


theorem sendBulkAux_spec (env : Nat → Env) :
    ∀ (l : List NotificationRequest) (i : Nat),
      (∀ p ∈ l.enumFrom i, (SendNotification (env p.1) p.2).outcome ≠ .panicked) →
      sendBulkAux env i l =
        .completed ((l.enumFrom i).filterMap (bulkSelect env)) none := by
  intro l
  induction l with
  | nil => intro i _; rfl
  | cons r rest ih =>
    intro i h
    have h0 : (SendNotification (env i) r).outcome ≠ .panicked :=
      h (i, r) (by simp [List.enumFrom])
    have hrest : ∀ p ∈ rest.enumFrom (i + 1),
        (SendNotification (env p.1) p.2).outcome ≠ .panicked :=
      fun p hp => h p (by simp [List.enumFrom, hp])
    rcases ho : (SendNotification (env i) r).outcome with - | msg | resp
    · exact absurd ho h0
    · simp only [sendBulkAux, ho]
      rw [ih (i + 1) hrest]
      simp [List.enumFrom, List.filterMap_cons, bulkSelect, ho]
    · simp only [sendBulkAux, ho]
      rw [ih (i + 1) hrest]
      simp [List.enumFrom, List.filterMap_cons, bulkSelect, ho]

/-! ## Claims -/

/-- C1 counterexample: the claim asserts unconditionally that for urgent
requests the SMS transport is invoked iff the phone number is non-empty, and
that the email transport is always invoked.  Concretely: when the email
transport fails, the phone is present but no SMS call happens; and when
`uuid.MustParse` panics on a malformed ID, no email call happens at all. -/
theorem C1_counterexample :
    urgentReq.priority = "urgent" ∧
    urgentReq.recipientPhone ≠ "" ∧
    (SendNotification { env0 with emailSendOk := false } urgentReq).smsCalls = 0 ∧
    (SendNotification env0 { urgentReq with landlordID := "nope" }).emailCalls = 0 := by
  decide

/-- C1 (amended): for an urgent request whose landlord and recipient IDs
parse as UUIDs, the email transport is invoked exactly once; when the email
call succeeds, the SMS transport is invoked iff `recipientPhone` is
non-empty, the returned result has status "sent" and channel "email", and an
SMS-transport failure does not change the returned outcome. -/
theorem C1_amended_urgent_dispatch (env : Env) (req : NotificationRequest)
    (hL : env.validUUID req.landlordID = true)
    (hR : env.validUUID req.recipientID = true)
    (hp : req.priority = "urgent") :
    (SendNotification env req).emailCalls = 1 ∧
    (env.emailSendOk = true →
      ((SendNotification env req).smsCalls =
        if req.recipientPhone = "" then 0 else 1) ∧
      (SendNotification env req).outcome =
        .ok { notificationID := env.newUUID, status := "sent",
              sentAt := env.now, channel := "email" } ∧
      (SendNotification { env with smsSendOk := false } req).outcome =
        (SendNotification { env with smsSendOk := true } req).outcome) := by
  constructor
  · by_cases he : env.emailSendOk
    · rw [SendNotification_urgent_ok hL hR hp he]
    · rw [SendNotification_urgent_fail hL hR hp (by simpa using he)]
  · intro he
    refine ⟨?_, ?_, ?_⟩
    · rw [SendNotification_urgent_ok hL hR hp he]
    · rw [SendNotification_urgent_ok hL hR hp he]
    · rw [@SendNotification_urgent_ok { env with smsSendOk := false } req hL hR hp he,
        @SendNotification_urgent_ok { env with smsSendOk := true } req hL hR hp he]

/-- C1 witness: the amended statement instantiated at a concrete urgent
request in a healthy world. -/
theorem C1_amended_witness :
    (SendNotification env0 urgentReq).emailCalls = 1 ∧
    (SendNotification env0 urgentReq).smsCalls = 1 ∧
    (SendNotification env0 urgentReq).outcome =
      .ok { notificationID := "notif-1", status := "sent",
            sentAt := 100, channel := "email" } := by
  have h := C1_amended_urgent_dispatch env0 urgentReq (by decide) (by decide)
    (by decide)
  refine ⟨h.1, ?_, (h.2 (by decide)).2.1⟩
  have hs := (h.2 (by decide)).1
  simpa using hs

/-- C2 counterexample: the claim asserts unconditionally that for a high
priority request of critical type with a phone number both transports are
invoked, and that with an empty phone number a success is returned.
Concretely: when the email transport fails, no SMS call happens although the
phone is present; with an empty phone the call returns an error, not a
success; and with a malformed landlord ID not even the email transport is
invoked. -/
theorem C2_counterexample :
    ({ urgentReq with priority := "high" } : NotificationRequest).priority = "high" ∧
    isCriticalNotificationType
      ({ urgentReq with priority := "high" } : NotificationRequest).type = true ∧
    ({ urgentReq with priority := "high" } : NotificationRequest).recipientPhone ≠ "" ∧
    (SendNotification { env0 with emailSendOk := false }
      { urgentReq with priority := "high" }).smsCalls = 0 ∧
    (SendNotification { env0 with emailSendOk := false }
      { urgentReq with priority := "high", recipientPhone := "" }).outcome =
      .failed ("failed to send notification: failed to send high priority email: failed to send email: ses down") ∧
    (SendNotification env0
      { urgentReq with priority := "high", landlordID := "nope" }).emailCalls = 0 := by
  decide

/-- C2 (amended): for a high-priority request of critical type whose IDs
parse as UUIDs and whose email-transport call succeeds: with a non-empty
phone number both transports are invoked (once each); with an empty phone
number only email is invoked and a success is returned. -/
theorem C2_amended_high_critical (env : Env) (req : NotificationRequest)
    (hL : env.validUUID req.landlordID = true)
    (hR : env.validUUID req.recipientID = true)
    (hp : req.priority = "high")
    (hc : isCriticalNotificationType req.type = true)
    (he : env.emailSendOk = true) :
    (req.recipientPhone ≠ "" →
      (SendNotification env req).emailCalls = 1 ∧
      (SendNotification env req).smsCalls = 1) ∧
    (req.recipientPhone = "" →
      (SendNotification env req).emailCalls = 1 ∧
      (SendNotification env req).smsCalls = 0 ∧
      (SendNotification env req).outcome =
        .ok { notificationID := env.newUUID, status := "sent",
              sentAt := env.now, channel := "email" }) := by
  rw [SendNotification_high_ok hL hR hp he]
  constructor
  · intro hph
    simp [hph, hc]
  · intro hph
    simp [hph]

/-- C2 witness: the amended statement instantiated with and without a phone
number. -/
theorem C2_amended_witness :
    (SendNotification env0 { urgentReq with priority := "high" }).emailCalls = 1 ∧
    (SendNotification env0 { urgentReq with priority := "high" }).smsCalls = 1 ∧
    (SendNotification env0
      { urgentReq with priority := "high", recipientPhone := "" }).smsCalls = 0 ∧
    (SendNotification env0
      { urgentReq with priority := "high", recipientPhone := "" }).outcome =
      .ok { notificationID := "notif-1", status := "sent",
            sentAt := 100, channel := "email" } := by
  have h1 := (C2_amended_high_critical env0 { urgentReq with priority := "high" }
    (by decide) (by decide) (by decide) (by decide) (by decide)).1 (by decide)
  have h2 := (C2_amended_high_critical env0
    { urgentReq with priority := "high", recipientPhone := "" }
    (by decide) (by decide) (by decide) (by decide) (by decide)).2 (by decide)
  exact ⟨h1.1, h1.2, h2.2.1, h2.2.2⟩

/-- C3 (confirmed): whenever the email transport is actually invoked
(`emailCalls ≥ 1`) and its call fails, `SendNotification` returns an error
(no response) and the SMS transport is never invoked — for every priority
and phone value. -/
theorem C3_email_failure_fatal (env : Env) (req : NotificationRequest)
    (hcall : 1 ≤ (SendNotification env req).emailCalls)
    (he : env.emailSendOk = false) :
    (∃ msg, (SendNotification env req).outcome = .failed msg) ∧
    (SendNotification env req).smsCalls = 0 := by
  by_cases hL : env.validUUID req.landlordID = true
  · by_cases hR : env.validUUID req.recipientID = true
    · by_cases hp1 : req.priority = "urgent"
      · rw [SendNotification_urgent_fail hL hR hp1 he]
        exact ⟨⟨_, rfl⟩, rfl⟩
      · by_cases hp2 : req.priority = "high"
        · rw [SendNotification_high_fail hL hR hp2 he]
          exact ⟨⟨_, rfl⟩, rfl⟩
        · rw [SendNotification_default hL hR hp1 hp2, if_neg (by simp [he])]
          exact ⟨⟨_, rfl⟩, rfl⟩
    · rw [SendNotification_panic (Or.inr (by simpa using hR))] at hcall
      simp at hcall
  · rw [SendNotification_panic (Or.inl (by simpa using hL))] at hcall
    simp at hcall

/-- C3 witness: a failing email world at a concrete urgent request. -/
theorem C3_witness :
    (∃ msg, (SendNotification { env0 with emailSendOk := false }
      urgentReq).outcome = .failed msg) ∧
    (SendNotification { env0 with emailSendOk := false } urgentReq).smsCalls = 0 :=
  C3_email_failure_fatal { env0 with emailSendOk := false } urgentReq
    (by decide) (by decide)

/-- C4 counterexample: for a request whose priority is neither "high" nor
"urgent" but whose landlord ID is not a valid UUID, `uuid.MustParse` panics
before any transport call, so no email call occurs — contradicting "exactly
one email transport call occurs". -/
theorem C4_counterexample :
    ({ urgentReq with priority := "low", landlordID := "nope" } :
      NotificationRequest).priority ≠ "high" ∧
    ({ urgentReq with priority := "low", landlordID := "nope" } :
      NotificationRequest).priority ≠ "urgent" ∧
    (SendNotification env0
      { urgentReq with priority := "low", landlordID := "nope" }).emailCalls = 0 := by
  decide

/-- C4 (amended): for every request whose priority is neither "high" nor
"urgent" (including absent or unrecognized values) and whose IDs parse as
UUIDs, `SendNotification` takes the email-only path: exactly one email
transport call and no SMS transport call, whatever the transport outcomes. -/
theorem C4_amended_email_only (env : Env) (req : NotificationRequest)
    (hL : env.validUUID req.landlordID = true)
    (hR : env.validUUID req.recipientID = true)
    (hp1 : req.priority ≠ "high") (hp2 : req.priority ≠ "urgent") :
    (SendNotification env req).emailCalls = 1 ∧
    (SendNotification env req).smsCalls = 0 := by
  rw [SendNotification_default hL hR hp2 hp1]
  by_cases he : env.emailSendOk <;> simp [he]

/-- C4 witness: instantiated at "low" and at an absent priority. -/
theorem C4_amended_witness :
    (SendNotification env0 { urgentReq with priority := "low" }).emailCalls = 1 ∧
    (SendNotification env0 { urgentReq with priority := "low" }).smsCalls = 0 ∧
    (SendNotification env0 { urgentReq with priority := "" }).smsCalls = 0 :=
  ⟨(C4_amended_email_only env0 { urgentReq with priority := "low" }
      (by decide) (by decide) (by decide) (by decide)).1,
   (C4_amended_email_only env0 { urgentReq with priority := "low" }
      (by decide) (by decide) (by decide) (by decide)).2,
   (C4_amended_email_only env0 { urgentReq with priority := "" }
      (by decide) (by decide) (by decide) (by decide)).2⟩

/-- C5 counterexample: a bulk batch containing a request with a malformed
landlord ID panics as a whole — the later, perfectly dispatchable request is
never processed and no response list is returned, contradicting "skips the
failing item and returns the responses of the successful items". -/
theorem C5_counterexample :
    SendBulkNotifications (fun _ => env0)
      [{ urgentReq with landlordID := "nope" }, urgentReq] = .panicked := by
  decide

/-- C5 (amended): when no item makes `uuid.MustParse` panic, the bulk call
processes the items in input order, skips every item whose dispatch returns
an error, returns exactly the responses of the successful items in their
relative input order (so the output is never longer than the input), and
returns a nil error. -/
theorem C5_amended_bulk (env : Nat → Env) (requests : List NotificationRequest)
    (h : ∀ p ∈ requests.enum,
      (SendNotification (env p.1) p.2).outcome ≠ .panicked) :
    SendBulkNotifications env requests =
      .completed (requests.enum.filterMap (bulkSelect env)) none ∧
    (requests.enum.filterMap (bulkSelect env)).length ≤ requests.length := by
  constructor
  · exact sendBulkAux_spec env requests 0 h
  · calc (requests.enum.filterMap (bulkSelect env)).length
        ≤ requests.enum.length := List.length_filterMap_le _ _
      _ = requests.length := List.enum_length

/-- C5 witness: a three-item batch whose middle item has a failing email
transport is skipped; the two successes come back in order with a nil
error. -/
theorem C5_amended_witness :
    SendBulkNotifications
      (fun i => if i = 1 then { env0 with emailSendOk := false } else env0)
      [urgentReq, urgentReq, { urgentReq with priority := "low" }] =
      .completed
        [{ notificationID := "notif-1", status := "sent", sentAt := 100,
           channel := "email" },
         { notificationID := "notif-1", status := "sent", sentAt := 100,
           channel := "email" }] none := by
  have h := (C5_amended_bulk
    (fun i => if i = 1 then { env0 with emailSendOk := false } else env0)
    [urgentReq, urgentReq, { urgentReq with priority := "low" }]
    (by decide)).1
  rw [h]
  decide

/-- C6: the generic email template is selected for an unmatched type, but
its variable mapping contains only `recipient_name`, `landlord_name`,
`date` and `time` — no `title` or `message` entries and no caller-supplied
merge exists — so the rendered generic subject stays the literal unresolved
placeholder and the rendered text body keeps unresolved placeholders. -/
theorem C6_generic_unresolved :
    (getEmailTemplate env0 "custom_event" urgentReq).vars.map Prod.fst =
      ["recipient_name", "landlord_name", "date", "time"] ∧
    replaceVariables (getEmailTemplate env0 "custom_event" urgentReq).subject
      (getEmailTemplate env0 "custom_event" urgentReq).vars = "\x7b\x7btitle\x7d\x7d" ∧
    ("\x7b\x7btitle\x7d\x7d" : String).data <:+:
      (replaceVariables (getEmailTemplate env0 "custom_event" urgentReq).textBody
        (getEmailTemplate env0 "custom_event" urgentReq).vars).data ∧
    ("\x7b\x7bmessage\x7d\x7d" : String).data <:+:
      (replaceVariables (getEmailTemplate env0 "custom_event" urgentReq).textBody
        (getEmailTemplate env0 "custom_event" urgentReq).vars).data := by
  refine ⟨by decide, by decide, by decide, by decide⟩

/-- C9: a request whose `LandlordID` (or `RecipientID`) is not a valid UUID
makes `SendNotification` panic inside `uuid.MustParse` before any
validation or transport call — no error value is ever returned to the
caller. -/
theorem C9_mustparse_panics :
    SendNotification env0 { urgentReq with landlordID := "nope" } =
      { outcome := .panicked, emailCalls := 0, smsCalls := 0 } ∧
    SendNotification env0 { urgentReq with recipientID := "nope" } =
      { outcome := .panicked, emailCalls := 0, smsCalls := 0 } := by
  decide

/-- C7 (confirmed): a placeholder whose (brace-free) key is absent from the
mapping survives verbatim into the output; the claim's own example renders
unchanged; a template in which no mapping key's placeholder occurs is
returned unchanged; hence rendering is idempotent on fully-rendered
output. -/
theorem C7_unresolved_verbatim :
    (∀ (t : String) (m : List (String × String)) (k : String),
      braceFree k.data = true →
      (∀ kv ∈ m, braceFree kv.1.data = true ∧ kv.1 ≠ k) →
      ph k.data <:+: t.data →
      ph k.data <:+: (replaceVariables t m).data) ∧
    replaceVariables "Hello \x7b\x7bmissing\x7d\x7d" [] = "Hello \x7b\x7bmissing\x7d\x7d" ∧
    (∀ (t : String) (m : List (String × String)),
      (∀ kv ∈ m, ¬ ph kv.1.data <:+: t.data) → replaceVariables t m = t) ∧
    (∀ (t : String) (m : List (String × String)),
      (∀ kv ∈ m, ¬ ph kv.1.data <:+: (replaceVariables t m).data) →
      replaceVariables (replaceVariables t m) m = replaceVariables t m) :=
  ⟨replaceVariables_keeps, rfl, replaceVariables_unchanged,
   fun t m h => replaceVariables_unchanged (replaceVariables t m) m h⟩

/-- C7 witness: survival of `missing` under a non-trivial mapping, the no-op
case, and idempotence on a fully rendered string. -/
theorem C7_witness :
    ph ("missing" : String).data <:+:
      (replaceVariables "Hello \x7b\x7bmissing\x7d\x7d" [("name", "Bob")]).data ∧
    replaceVariables "plain text" [("name", "Bob")] = "plain text" ∧
    replaceVariables
      (replaceVariables "Hello \x7b\x7bname\x7d\x7d" [("name", "Bob")])
      [("name", "Bob")] =
      replaceVariables "Hello \x7b\x7bname\x7d\x7d" [("name", "Bob")] :=
  ⟨C7_unresolved_verbatim.1 "Hello \x7b\x7bmissing\x7d\x7d" [("name", "Bob")]
    "missing" (by decide) (by decide) (by decide),
   C7_unresolved_verbatim.2.2.1 "plain text" [("name", "Bob")] (by decide),
   C7_unresolved_verbatim.2.2.2 "Hello \x7b\x7bname\x7d\x7d" [("name", "Bob")]
    (by decide)⟩

/-- C8 counterexample: two iteration orders of the same mapping produce
different outputs, because the value substituted for `a` introduces the
placeholder of `b`. -/
theorem C8_counterexample :
    List.Perm [("a", "\x7b\x7bb\x7d\x7d"), ("b", "X")]
      [("b", "X"), ("a", "\x7b\x7bb\x7d\x7d")] ∧
    replaceVariables "\x7b\x7ba\x7d\x7d" [("a", "\x7b\x7bb\x7d\x7d"), ("b", "X")] ≠
      replaceVariables "\x7b\x7ba\x7d\x7d" [("b", "X"), ("a", "\x7b\x7bb\x7d\x7d")] := by
  decide

/-- C8 witness: order-independence holds at a concrete benign mapping under
both orders. -/
theorem C8_amended_witness :
    replaceVariables "\x7b\x7ba\x7d\x7d and \x7b\x7bb\x7d\x7d" [("a", "X"), ("b", "Y")] =
      replaceVariables "\x7b\x7ba\x7d\x7d and \x7b\x7bb\x7d\x7d" [("b", "Y"), ("a", "X")] :=
  replaceVariables_perm "\x7b\x7ba\x7d\x7d and \x7b\x7bb\x7d\x7d"
    [("a", "X"), ("b", "Y")] [("b", "Y"), ("a", "X")]
    (by decide) (by decide) (by decide) (by decide) (by decide)

/-- C10 (confirmed): the registry's dedicated tables are exactly the email
templates for `maintenance_request` and `payment_due` and the SMS templates
for `maintenance_emergency` and `payment_overdue`; every other type gets
the generic email and generic SMS template, and the dedicated templates
differ from the generic ones. -/
theorem C10_registry (env : Env) (req : NotificationRequest) :
    (∀ t : String, t ∉ (["maintenance_request", "payment_due"] : List String) →
      getEmailTemplate env t req =
        { subject := "\x7b\x7btitle\x7d\x7d", htmlBody := genericEmailHTML,
          textBody := genericEmailText, vars := emailBaseVariables env req }) ∧
    (∀ t : String,
      t ∉ (["maintenance_emergency", "payment_overdue"] : List String) →
      getSMSTemplate env t req =
        { message := "\x7b\x7btitle\x7d\x7d: \x7b\x7bmessage\x7d\x7d"
          vars := [("recipient_name", req.recipientType)] }) ∧
    (getEmailTemplate env "maintenance_request" req).subject ≠ "\x7b\x7btitle\x7d\x7d" ∧
    (getEmailTemplate env "payment_due" req).subject ≠ "\x7b\x7btitle\x7d\x7d" ∧
    (getSMSTemplate env "maintenance_emergency" req).message ≠
      "\x7b\x7btitle\x7d\x7d: \x7b\x7bmessage\x7d\x7d" ∧
    (getSMSTemplate env "payment_overdue" req).message ≠
      "\x7b\x7btitle\x7d\x7d: \x7b\x7bmessage\x7d\x7d" := by
  refine ⟨?_, ?_, ?_, ?_, ?_, ?_⟩
  · intro t ht
    unfold getEmailTemplate
    split
    · exact absurd (by simp_all) ht
    · exact absurd (by simp_all) ht
    · rfl
  · intro t ht
    unfold getSMSTemplate
    split
    · exact absurd (by simp_all) ht
    · exact absurd (by simp_all) ht
    · rfl
  · rw [show (getEmailTemplate env "maintenance_request" req).subject =
        "New Maintenance Request - \x7b\x7btitle\x7d\x7d" from rfl]
    decide
  · rw [show (getEmailTemplate env "payment_due" req).subject =
        "Payment Due Reminder" from rfl]
    decide
  · rw [show (getSMSTemplate env "maintenance_emergency" req).message =
        "URGENT: Emergency maintenance request at \x7b\x7bproperty_name\x7d\x7d. Please respond immediately." from rfl]
    decide
  · rw [show (getSMSTemplate env "payment_overdue" req).message =
        "Payment overdue: $\x7b\x7bamount\x7d\x7d due for \x7b\x7bproperty_name\x7d\x7d. Please contact us immediately." from rfl]
    decide

/-- C10 witness: the three critical types without dedicated templates
resolve to the generic templates. -/
theorem C10_witness :
    getEmailTemplate env0 "lease_violation" urgentReq =
      { subject := "\x7b\x7btitle\x7d\x7d", htmlBody := genericEmailHTML,
        textBody := genericEmailText,
        vars := emailBaseVariables env0 urgentReq } ∧
    getSMSTemplate env0 "security_breach" urgentReq =
      { message := "\x7b\x7btitle\x7d\x7d: \x7b\x7bmessage\x7d\x7d"
        vars := [("recipient_name", urgentReq.recipientType)] } ∧
    getSMSTemplate env0 "property_damage" urgentReq =
      { message := "\x7b\x7btitle\x7d\x7d: \x7b\x7bmessage\x7d\x7d"
        vars := [("recipient_name", urgentReq.recipientType)] } :=
  ⟨(C10_registry env0 urgentReq).1 "lease_violation" (by decide),
   (C10_registry env0 urgentReq).2.1 "security_breach" (by decide),
   (C10_registry env0 urgentReq).2.1 "property_damage" (by decide)⟩
